import Mathlib

/-!
Shallow embedding of `liualgotrader/common/database.py`.

The module holds two async functions:

  async def create_db_connection(dsn: str = None) -> None:
      config.db_conn_pool = await asyncpg.create_pool(
          dsn=dsn or config.dsn, min_size=2, max_size=40)
      tlog("db connection pool initialized")

  async def fetch_as_dataframe(query: str, *args) -> pd.DataFrame:
      try:
          config.db_conn_pool
      except (NameError, AttributeError):
          await create_db_connection()
      async with config.db_conn_pool.acquire() as con:
          stmt = await con.prepare(query)
          columns = [a.name for a in stmt.get_attributes()]
          data = await stmt.fetch(*args)
          return (pd.DataFrame(data=data, columns=columns)
                  if data and len(data) > 0 else pd.DataFrame())

We model the mutable module-level `config` object as an explicit state,
the database layer (asyncpg) as an oracle `Env`, and record an event
trace so that acquisition/release, lazy pool creation and retry
behaviour become statable properties.
-/

namespace LiuDb

/-- A prepared-statement output attribute; `a.name` is read by
`fetch_as_dataframe` to build the column list. -/
structure Attr where
  name : String
deriving DecidableEq, Repr

/-- The pool object returned by `asyncpg.create_pool(dsn=..., min_size=...,
max_size=...)`: on success asyncpg returns a pool configured with exactly
the arguments given at the call site. -/
structure Pool where
  dsn : String
  min_size : Nat
  max_size : Nat
deriving DecidableEq, Repr

/-- The state of the module-level attribute `config.db_conn_pool`.
`unbound` means the attribute does not exist (accessing it raises
`AttributeError`); `nonPool` means it exists but is bound to a value
with no usable `acquire` method, such as `None`; `pool p` means it
holds a live pool. -/
inductive PoolSlot where
  | unbound : PoolSlot
  | nonPool : PoolSlot
  | pool : Pool → PoolSlot
deriving DecidableEq, Repr

/-- The mutable process-wide state touched by the module: the fallback
connection string `config.dsn`, the shared pool attribute
`config.db_conn_pool`, and the log lines emitted through `tlog`. -/
structure ConfigState where
  dsn : String
  db_conn_pool : PoolSlot
  log : List String
deriving DecidableEq, Repr

/-- Exceptions that can escape these two functions. `dbError` stands for
any database-layer exception raised by asyncpg (pool creation failure,
prepare failure, introspection failure, fetch failure);
`attributeError` is the Python `AttributeError` raised when
`config.db_conn_pool.acquire()` is evaluated on a non-pool value. -/
inductive PyError where
  | attributeError : PyError
  | dbError : PyError
deriving DecidableEq, Repr

/-- Observable events of one call, in order: `initPool a` marks a call
to `create_db_connection` with argument `a`; `createPool d` marks a call
to `asyncpg.create_pool` with effective connection string `d`;
`acquire`/`release` mark the entry and exit of the pool connection
context manager; `prepare`, `getAttrs` and `fetch` mark the three
database operations inside it. -/
inductive Event where
  | initPool : Option String → Event
  | createPool : String → Event
  | acquire : Event
  | release : Event
  | prepare : String → Event
  | getAttrs : String → Event
  | fetch : String → Event
deriving DecidableEq, Repr

/-- The database layer as an oracle. `createPoolOk d` tells whether
`asyncpg.create_pool` succeeds for connection string `d`;
`prepareOk q` whether `con.prepare(q)` succeeds;
`get_attributes q` the declared output attributes of the prepared
statement for `q` (`none` = introspection raises);
`fetchRows q args` the rows returned by `stmt.fetch(*args)`
(`none` = the fetch raises). Rows are kept abstract as lists of
string-rendered values. -/
structure Env where
  createPoolOk : String → Bool
  prepareOk : String → Bool
  get_attributes : String → Option (List Attr)
  fetchRows : String → List String → Option (List (List String))

/-- The in-memory table returned by `fetch_as_dataframe`:
`pd.DataFrame(data=data, columns=columns)` keeps the fetched rows in
fetch order under the given column names; the bare `pd.DataFrame()`
constructor yields a table with no columns and no rows. -/
structure DataFrame where
  columns : List String
  rows : List (List String)
deriving DecidableEq, Repr

/-- Outcome of `create_db_connection`: the state after the call, the
events it performed, and the exception it raised, if any. -/
structure CreateOut where
  state : ConfigState
  trace : List Event
  err : Option PyError
deriving DecidableEq, Repr

/-- Outcome of `fetch_as_dataframe`: the state after the call, the
events it performed, and either the returned table or the exception
that propagated. -/
structure FetchOut where
  state : ConfigState
  trace : List Event
  result : Except PyError DataFrame
deriving Repr

/-- The Python expression `dsn or config.dsn`: falls back to
`config.dsn` when the argument is `None` or any falsy string, i.e. the
empty string. -/
def effectiveDsn (dsn : Option String) (st : ConfigState) : String :=
  match dsn with
  | none => st.dsn
  | some s => if s = "" then st.dsn else s

/-- `create_db_connection(dsn)`: calls
`asyncpg.create_pool(dsn=dsn or config.dsn, min_size=2, max_size=40)`.
If the call raises, the exception propagates before the assignment and
the log line, so the state is unchanged. On success the pool is stored
in `config.db_conn_pool` and one log line is emitted via `tlog`. -/
def create_db_connection (env : Env) (dsn : Option String) (st : ConfigState) :
    CreateOut :=
  let d := effectiveDsn dsn st
  if env.createPoolOk d then
    { state := { st with
        db_conn_pool := PoolSlot.pool ⟨d, 2, 40⟩,
        log := st.log ++ ["db connection pool initialized"] },
      trace := [Event.createPool d],
      err := none }
  else
    { state := st, trace := [Event.createPool d], err := some PyError.dbError }

/-- The body of `fetch_as_dataframe` from the line
`async with config.db_conn_pool.acquire() as con:` on, entered with the
state `st` current at that point and the events `evs` already
performed. The `async with` block releases the connection on every exit
path, so `Event.release` follows the body events whether the body
returned or raised; evaluating `.acquire()` on a non-pool value raises
`AttributeError` without entering the block. -/
def acquireAndFetch (env : Env) (query : String) (args : List String)
    (st : ConfigState) (evs : List Event) : FetchOut :=
  match st.db_conn_pool with
  | PoolSlot.pool _ =>
      let body : List Event × Except PyError DataFrame :=
        if env.prepareOk query then
          match env.get_attributes query with
          | none => ([Event.prepare query, Event.getAttrs query],
                     Except.error PyError.dbError)
          | some attrs =>
              let columns := attrs.map Attr.name
              match env.fetchRows query args with
              | none => ([Event.prepare query, Event.getAttrs query,
                          Event.fetch query],
                         Except.error PyError.dbError)
              | some data =>
                  ([Event.prepare query, Event.getAttrs query,
                    Event.fetch query],
                   Except.ok
                     (if data ≠ [] ∧ data.length > 0 then
                        ⟨columns, data⟩
                      else ⟨[], []⟩))
        else ([Event.prepare query], Except.error PyError.dbError)
      { state := st,
        trace := evs ++ [Event.acquire] ++ body.1 ++ [Event.release],
        result := body.2 }
  | _ =>
      { state := st, trace := evs,
        result := Except.error PyError.attributeError }

/-- `fetch_as_dataframe(query, *args)`: the `try` block reads
`config.db_conn_pool`; only a missing attribute is caught
(`NameError`/`AttributeError` from the bare attribute access), in which
case `create_db_connection()` is awaited with no argument. Any
exception raised by that call itself propagates. Then the pool
attribute is read again and the query runs inside the connection
context manager. -/
def fetch_as_dataframe (env : Env) (query : String) (args : List String)
    (st : ConfigState) : FetchOut :=
  match st.db_conn_pool with
  | PoolSlot.unbound =>
      let c := create_db_connection env none st
      match c.err with
      | some e =>
          { state := c.state, trace := Event.initPool none :: c.trace,
            result := Except.error e }
      | none =>
          acquireAndFetch env query args c.state
            (Event.initPool none :: c.trace)
  | _ => acquireAndFetch env query args st []

/-- True of the events marking an invocation of `create_db_connection`. -/
def isInitPool : Event → Bool
  | Event.initPool _ => true
  | _ => false

/-- True of the events marking a call to `asyncpg.create_pool`. -/
def isCreatePool : Event → Bool
  | Event.createPool _ => true
  | _ => false

/-- True of the `acquire` event. -/
def isAcquire : Event → Bool
  | Event.acquire => true
  | _ => false

/-- True of the `release` event. -/
def isRelease : Event → Bool
  | Event.release => true
  | _ => false

/-- True of the events marking a `con.prepare` call. -/
def isPrepare : Event → Bool
  | Event.prepare _ => true
  | _ => false

/-- True of the events marking a `stmt.fetch` call. -/
def isFetch : Event → Bool
  | Event.fetch _ => true
  | _ => false

/-- The pool is usable when `fetch_as_dataframe` reaches the
`async with` line: either the shared slot already holds a pool, or it
is unbound and the lazy creation from the fallback connection string
succeeds. -/
def poolReady (env : Env) (st : ConfigState) : Prop :=
  (∃ p, st.db_conn_pool = PoolSlot.pool p) ∨
    (st.db_conn_pool = PoolSlot.unbound ∧ env.createPoolOk st.dsn = true)

/-- Sample declared attributes for witnesses. -/
def attrsAB : List Attr := [⟨"a"⟩, ⟨"b"⟩]

/-- Sample fetched rows for witnesses. -/
def rows2 : List (List String) := [["1", "x"], ["2", "y"]]

/-- A database oracle for which every operation succeeds. -/
def envOK : Env :=
  { createPoolOk := fun _ => true,
    prepareOk := fun _ => true,
    get_attributes := fun _ => some attrsAB,
    fetchRows := fun _ _ => some rows2 }

/-- A database oracle whose fetch returns zero rows while the prepared
statement still declares two attributes. -/
def envEmpty : Env :=
  { createPoolOk := fun _ => true,
    prepareOk := fun _ => true,
    get_attributes := fun _ => some attrsAB,
    fetchRows := fun _ _ => some [] }

/-- A state whose shared slot already holds a pool. -/
def stPool : ConfigState :=
  { dsn := "fallback",
    db_conn_pool := PoolSlot.pool ⟨"fallback", 2, 40⟩,
    log := [] }

/-- A state whose shared slot has never been assigned. -/
def stUnbound : ConfigState :=
  { dsn := "fallback", db_conn_pool := PoolSlot.unbound, log := [] }

/-- A state whose shared slot exists but is bound to a non-pool value
such as `None`. -/
def stNone : ConfigState :=
  { dsn := "fallback", db_conn_pool := PoolSlot.nonPool, log := [] }

/-- A state whose shared slot holds an older pool bound to a different
connection string. -/
def stOld : ConfigState :=
  { dsn := "fallback",
    db_conn_pool := PoolSlot.pool ⟨"old", 2, 40⟩,
    log := [] }

/-- A database oracle whose statement preparation raises. -/
def envPrepFail : Env :=
  { createPoolOk := fun _ => true,
    prepareOk := fun _ => false,
    get_attributes := fun _ => some attrsAB,
    fetchRows := fun _ _ => some rows2 }

/-- A database oracle whose pool creation raises. -/
def envCreateFail : Env :=
  { createPoolOk := fun _ => false,
    prepareOk := fun _ => true,
    get_attributes := fun _ => some attrsAB,
    fetchRows := fun _ _ => some rows2 }

/-- C1: for every call to `fetch_as_dataframe` whose fetch returns a
nonempty list of rows, the returned table has exactly those rows in
fetch order, and its columns are exactly the prepared statement
declared attribute names in declared order. -/
theorem C1_nonempty_fetch_table (env : Env) (query : String)
    (args : List String) (st : ConfigState) (attrs : List Attr)
    (data : List (List String)) (hready : poolReady env st)
    (hprep : env.prepareOk query = true)
    (hattrs : env.get_attributes query = some attrs)
    (hdata : env.fetchRows query args = some data) (hne : data ≠ []) :
    (fetch_as_dataframe env query args st).result =
      Except.ok ⟨attrs.map Attr.name, data⟩ := by
  have hcond : data ≠ [] ∧ data.length > 0 :=
    ⟨hne, List.length_pos.mpr hne⟩
  rcases hready with ⟨p, hp⟩ | ⟨hu, hc⟩
  · simp [fetch_as_dataframe, acquireAndFetch, hp, hprep, hattrs, hdata,
      hcond.1, hcond.2]
  · simp [fetch_as_dataframe, create_db_connection, effectiveDsn,
      acquireAndFetch, hu, hc, hprep, hattrs, hdata, hcond.1, hcond.2]

/-- Concrete instance of C1: two rows come back with the two declared
columns, in order. -/
theorem C1_nonempty_fetch_table_witness :
    poolReady envOK stPool ∧ envOK.prepareOk "q" = true ∧
    envOK.get_attributes "q" = some attrsAB ∧
    envOK.fetchRows "q" [] = some rows2 ∧ rows2 ≠ [] ∧
    (fetch_as_dataframe envOK "q" [] stPool).result =
      Except.ok ⟨["a", "b"], rows2⟩ :=
  ⟨Or.inl ⟨⟨"fallback", 2, 40⟩, rfl⟩, rfl, rfl, rfl, by decide,
    C1_nonempty_fetch_table envOK "q" [] stPool attrsAB rows2
      (Or.inl ⟨⟨"fallback", 2, 40⟩, rfl⟩) rfl rfl rfl (by decide)⟩

/-- C2: for every call to `fetch_as_dataframe` whose fetch returns zero
rows, the returned table has no rows and no columns, even when the
prepared statement declared a nonempty list of attribute names: the
declared schema is discarded in the empty case. -/
theorem C2_empty_fetch_no_schema (env : Env) (query : String)
    (args : List String) (st : ConfigState) (attrs : List Attr)
    (hready : poolReady env st) (hprep : env.prepareOk query = true)
    (hattrs : env.get_attributes query = some attrs)
    (hdata : env.fetchRows query args = some []) :
    (fetch_as_dataframe env query args st).result =
      Except.ok ⟨[], []⟩ := by
  rcases hready with ⟨p, hp⟩ | ⟨hu, hc⟩
  · simp [fetch_as_dataframe, acquireAndFetch, hp, hprep, hattrs, hdata]
  · simp [fetch_as_dataframe, create_db_connection, effectiveDsn,
      acquireAndFetch, hu, hc, hprep, hattrs, hdata]

/-- Concrete instance of C2: the statement declares two attribute
names, zero rows come back, and the table is empty with no columns. -/
theorem C2_empty_fetch_no_schema_witness :
    poolReady envEmpty stPool ∧ envEmpty.prepareOk "q" = true ∧
    envEmpty.get_attributes "q" = some attrsAB ∧
    envEmpty.fetchRows "q" [] = some [] ∧ attrsAB ≠ [] ∧
    (fetch_as_dataframe envEmpty "q" [] stPool).result =
      Except.ok ⟨[], []⟩ :=
  ⟨Or.inl ⟨⟨"fallback", 2, 40⟩, rfl⟩, rfl, rfl, rfl, by decide,
    C2_empty_fetch_no_schema envEmpty "q" [] stPool attrsAB
      (Or.inl ⟨⟨"fallback", 2, 40⟩, rfl⟩) rfl rfl rfl⟩

/-- Helper: when the slot holds a pool, `fetch_as_dataframe` is the
connection block run on the unchanged state with an empty prior trace. -/
theorem fetch_as_dataframe_pool (env : Env) (query : String)
    (args : List String) (st : ConfigState) (p : Pool)
    (hp : st.db_conn_pool = PoolSlot.pool p) :
    fetch_as_dataframe env query args st =
      acquireAndFetch env query args st [] := by
  simp [fetch_as_dataframe, hp]

/-- Helper: when the slot is bound to a non-pool value, the lazy-init
check passes it by and the connection block runs on it directly. -/
theorem fetch_as_dataframe_nonpool (env : Env) (query : String)
    (args : List String) (st : ConfigState)
    (hp : st.db_conn_pool = PoolSlot.nonPool) :
    fetch_as_dataframe env query args st =
      acquireAndFetch env query args st [] := by
  simp [fetch_as_dataframe, hp]

/-- Helper: when the slot is unbound and pool creation succeeds,
`fetch_as_dataframe` runs the connection block on the state holding the
freshly created pool, after the two initialization events. -/
theorem fetch_as_dataframe_unbound_ok (env : Env) (query : String)
    (args : List String) (st : ConfigState)
    (hu : st.db_conn_pool = PoolSlot.unbound)
    (hc : env.createPoolOk st.dsn = true) :
    fetch_as_dataframe env query args st =
      acquireAndFetch env query args
        { st with db_conn_pool := PoolSlot.pool ⟨st.dsn, 2, 40⟩,
                  log := st.log ++ ["db connection pool initialized"] }
        [Event.initPool none, Event.createPool st.dsn] := by
  simp [fetch_as_dataframe, create_db_connection, effectiveDsn, hu, hc]

/-- Helper: when the slot is unbound and pool creation raises, the
exception propagates out of `fetch_as_dataframe` with the state
unchanged and no connection ever acquired. -/
theorem fetch_as_dataframe_unbound_fail (env : Env) (query : String)
    (args : List String) (st : ConfigState)
    (hu : st.db_conn_pool = PoolSlot.unbound)
    (hc : env.createPoolOk st.dsn = false) :
    fetch_as_dataframe env query args st =
      { state := st,
        trace := [Event.initPool none, Event.createPool st.dsn],
        result := Except.error PyError.dbError } := by
  simp [fetch_as_dataframe, create_db_connection, effectiveDsn, hu, hc]

/-- Helper: trace shape of the connection block when a pool is present:
exactly one acquire and one release bracket the database events, which
contain no pool-management events and at most one prepare and one
fetch; and if any of the three database operations raises, the raised
error is the outcome. -/
theorem acquireAndFetch_pool_shape (env : Env) (query : String)
    (args : List String) (st : ConfigState) (evs : List Event) (p : Pool)
    (hp : st.db_conn_pool = PoolSlot.pool p) :
    ∃ mid : List Event,
      (acquireAndFetch env query args st evs).trace =
        evs ++ [Event.acquire] ++ mid ++ [Event.release] ∧
      mid.countP isInitPool = 0 ∧ mid.countP isCreatePool = 0 ∧
      mid.countP isAcquire = 0 ∧ mid.countP isRelease = 0 ∧
      mid.countP isPrepare ≤ 1 ∧ mid.countP isFetch ≤ 1 ∧
      ((env.prepareOk query = false ∨ env.get_attributes query = none ∨
          env.fetchRows query args = none) →
        (acquireAndFetch env query args st evs).result =
          Except.error PyError.dbError) := by
  cases hq : env.prepareOk query
  · refine ⟨[Event.prepare query], ?_⟩
    simp [acquireAndFetch, hp, hq, isInitPool, isCreatePool, isAcquire,
      isRelease, isPrepare, isFetch, List.countP_cons, List.countP_nil]
  · rcases ha : env.get_attributes query with _ | attrs
    · refine ⟨[Event.prepare query, Event.getAttrs query], ?_⟩
      simp [acquireAndFetch, hp, hq, ha, isInitPool, isCreatePool,
        isAcquire, isRelease, isPrepare, isFetch, List.countP_cons,
        List.countP_nil]
    · rcases hf : env.fetchRows query args with _ | data
      · refine ⟨[Event.prepare query, Event.getAttrs query,
          Event.fetch query], ?_⟩
        simp [acquireAndFetch, hp, hq, ha, hf, isInitPool, isCreatePool,
          isAcquire, isRelease, isPrepare, isFetch, List.countP_cons,
          List.countP_nil]
      · refine ⟨[Event.prepare query, Event.getAttrs query,
          Event.fetch query], ?_⟩
        simp [acquireAndFetch, hp, hq, ha, hf, isInitPool, isCreatePool,
          isAcquire, isRelease, isPrepare, isFetch, List.countP_cons,
          List.countP_nil]

/-- C3 counterexample: calling `create_db_connection` with the present
connection string `""` does not bind the pool to that string; the
Python expression `dsn or config.dsn` treats the empty string as falsy
and uses the fallback configuration value instead. -/
theorem C3_counterexample :
    (create_db_connection envOK (some "") stUnbound).state.db_conn_pool ≠
      PoolSlot.pool ⟨"", 2, 40⟩ ∧
    (create_db_connection envOK (some "") stUnbound).state.db_conn_pool =
      PoolSlot.pool ⟨"fallback", 2, 40⟩ := by
  exact ⟨by decide, rfl⟩

/-- C3 amended: for every call to `create_db_connection` with an
explicit nonempty connection string, the pool creation uses that string
and, on success, the pool is bound to it; when the argument is absent
or is the empty string, the fallback configuration value is used. -/
theorem C3_nonempty_dsn_preferred (env : Env) (st : ConfigState)
    (s : String) (hs : s ≠ "") :
    (create_db_connection env (some s) st).trace = [Event.createPool s] ∧
    (env.createPoolOk s = true →
      (create_db_connection env (some s) st).state.db_conn_pool =
        PoolSlot.pool ⟨s, 2, 40⟩) ∧
    (create_db_connection env none st).trace =
      [Event.createPool st.dsn] ∧
    (create_db_connection env (some "") st).trace =
      [Event.createPool st.dsn] := by
  refine ⟨?_, ?_, ?_, ?_⟩
  · cases hc : env.createPoolOk s <;>
      simp [create_db_connection, effectiveDsn, hs, hc]
  · intro hc
    simp [create_db_connection, effectiveDsn, hs, hc]
  · cases hc : env.createPoolOk st.dsn <;>
      simp [create_db_connection, effectiveDsn, hc]
  · cases hc : env.createPoolOk st.dsn <;>
      simp [create_db_connection, effectiveDsn, hc]

/-- Concrete instance of the amended C3: a nonempty explicit string
wins over the fallback value. -/
theorem C3_nonempty_dsn_preferred_witness :
    ("explicit" : String) ≠ "" ∧ envOK.createPoolOk "explicit" = true ∧
    (create_db_connection envOK (some "explicit") stPool).state.db_conn_pool
      = PoolSlot.pool ⟨"explicit", 2, 40⟩ :=
  ⟨by decide, rfl,
    (C3_nonempty_dsn_preferred envOK stPool "explicit" (by decide)).2.1 rfl⟩

/-- C4: a call to `fetch_as_dataframe` on a state with no pool
attribute performs exactly one implicit pool creation, invoked with no
connection string and therefore creating from the fallback
configuration value, before any query work; a call on a state whose
pool attribute exists performs none. -/
theorem C4_lazy_init_exactly_once (env : Env) (query : String)
    (args : List String) (st : ConfigState) :
    (st.db_conn_pool = PoolSlot.unbound →
      (fetch_as_dataframe env query args st).trace.countP isInitPool = 1 ∧
      ∃ rest, (fetch_as_dataframe env query args st).trace =
        Event.initPool none :: Event.createPool st.dsn :: rest) ∧
    (st.db_conn_pool ≠ PoolSlot.unbound →
      (fetch_as_dataframe env query args st).trace.countP isInitPool = 0)
    := by
  constructor
  · intro hu
    cases hc : env.createPoolOk st.dsn
    · rw [fetch_as_dataframe_unbound_fail env query args st hu hc]
      exact ⟨by simp [isInitPool, List.countP_cons, List.countP_nil],
        [], rfl⟩
    · rw [fetch_as_dataframe_unbound_ok env query args st hu hc]
      obtain ⟨mid, hmid, h1, _, _, _, _, _, _⟩ :=
        acquireAndFetch_pool_shape env query args
          { st with db_conn_pool := PoolSlot.pool ⟨st.dsn, 2, 40⟩,
                    log := st.log ++ ["db connection pool initialized"] }
          [Event.initPool none, Event.createPool st.dsn] ⟨st.dsn, 2, 40⟩
          rfl
      rw [hmid]
      constructor
      · simp [List.countP_append, List.countP_cons, List.countP_nil, h1,
          isInitPool]
      · exact ⟨[Event.acquire] ++ mid ++ [Event.release], by simp⟩
  · intro hne
    rcases hslot : st.db_conn_pool with _ | _ | p
    · exact absurd hslot hne
    · rw [fetch_as_dataframe_nonpool env query args st hslot]
      simp [acquireAndFetch, hslot]
    · rw [fetch_as_dataframe_pool env query args st p hslot]
      obtain ⟨mid, hmid, h1, _, _, _, _, _, _⟩ :=
        acquireAndFetch_pool_shape env query args st [] p hslot
      rw [hmid]
      simp [List.countP_append, List.countP_cons, List.countP_nil, h1,
        isInitPool]

/-- Concrete instance of C4: on an unbound slot the trace starts with
the parameterless initialization; on a bound slot it has none. -/
theorem C4_lazy_init_exactly_once_witness :
    ((fetch_as_dataframe envOK "q" [] stUnbound).trace.countP isInitPool
      = 1) ∧
    ((fetch_as_dataframe envOK "q" [] stPool).trace.countP isInitPool
      = 0) :=
  ⟨((C4_lazy_init_exactly_once envOK "q" [] stUnbound).1 rfl).1,
    (C4_lazy_init_exactly_once envOK "q" [] stPool).2 (by decide)⟩

/-- C5: whenever `fetch_as_dataframe` reaches the connection block with
a usable pool and statement preparation, attribute introspection, or
row fetching raises a database-layer error, the connection is acquired
exactly once and released exactly once, and the error propagates. -/
theorem C5_error_path_releases (env : Env) (query : String)
    (args : List String) (st : ConfigState) (hready : poolReady env st)
    (herr : env.prepareOk query = false ∨
      env.get_attributes query = none ∨
      env.fetchRows query args = none) :
    (fetch_as_dataframe env query args st).trace.countP isAcquire = 1 ∧
    (fetch_as_dataframe env query args st).trace.countP isRelease = 1 ∧
    (fetch_as_dataframe env query args st).result =
      Except.error PyError.dbError := by
  rcases hready with ⟨p, hp⟩ | ⟨hu, hc⟩
  · rw [fetch_as_dataframe_pool env query args st p hp]
    obtain ⟨mid, hmid, _, _, h3, h4, _, _, herr2⟩ :=
      acquireAndFetch_pool_shape env query args st [] p hp
    rw [hmid]
    refine ⟨?_, ?_, herr2 herr⟩ <;>
      simp [List.countP_append, List.countP_cons, List.countP_nil, h3,
        h4, isAcquire, isRelease]
  · rw [fetch_as_dataframe_unbound_ok env query args st hu hc]
    obtain ⟨mid, hmid, _, _, h3, h4, _, _, herr2⟩ :=
      acquireAndFetch_pool_shape env query args
        { st with db_conn_pool := PoolSlot.pool ⟨st.dsn, 2, 40⟩,
                  log := st.log ++ ["db connection pool initialized"] }
        [Event.initPool none, Event.createPool st.dsn] ⟨st.dsn, 2, 40⟩
        rfl
    rw [hmid]
    refine ⟨?_, ?_, herr2 herr⟩ <;>
      simp [List.countP_append, List.countP_cons, List.countP_nil, h3,
        h4, isAcquire, isRelease, isInitPool, isCreatePool]

/-- Concrete instance of C5: preparation fails, the error propagates,
and the trace still pairs the acquire with a release. -/
theorem C5_error_path_releases_witness :
    poolReady envPrepFail stPool ∧
    envPrepFail.prepareOk "q" = false ∧
    (fetch_as_dataframe envPrepFail "q" [] stPool).trace.countP isAcquire
      = 1 ∧
    (fetch_as_dataframe envPrepFail "q" [] stPool).trace.countP isRelease
      = 1 :=
  ⟨Or.inl ⟨⟨"fallback", 2, 40⟩, rfl⟩, rfl,
    (C5_error_path_releases envPrepFail "q" [] stPool
      (Or.inl ⟨⟨"fallback", 2, 40⟩, rfl⟩) (Or.inl rfl)).1,
    (C5_error_path_releases envPrepFail "q" [] stPool
      (Or.inl ⟨⟨"fallback", 2, 40⟩, rfl⟩) (Or.inl rfl)).2.1⟩

/-- C6: every successful call to `create_db_connection`, whatever the
connection string argument, stores in the shared slot a pool whose
bounds are minimum 2 and maximum 40 and whose connection string is the
effective one. -/
theorem C6_pool_bounds_and_stored (env : Env) (dsn : Option String)
    (st : ConfigState)
    (hc : env.createPoolOk (effectiveDsn dsn st) = true) :
    ∃ p : Pool,
      (create_db_connection env dsn st).state.db_conn_pool =
        PoolSlot.pool p ∧
      p.min_size = 2 ∧ p.max_size = 40 ∧ p.dsn = effectiveDsn dsn st :=
  ⟨⟨effectiveDsn dsn st, 2, 40⟩,
    by simp [create_db_connection, hc], rfl, rfl, rfl⟩

/-- Concrete instance of C6: an explicit string yields a stored pool
with bounds 2 and 40. -/
theorem C6_pool_bounds_and_stored_witness :
    envOK.createPoolOk (effectiveDsn (some "explicit") stUnbound) = true ∧
    ∃ p : Pool,
      (create_db_connection envOK (some "explicit")
          stUnbound).state.db_conn_pool = PoolSlot.pool p ∧
      p.min_size = 2 ∧ p.max_size = 40 ∧
      p.dsn = effectiveDsn (some "explicit") stUnbound :=
  ⟨rfl, C6_pool_bounds_and_stored envOK (some "explicit") stUnbound rfl⟩

/-- C7: `create_db_connection` performs no check for an existing pool:
on every call, for every prior slot content, it calls
`asyncpg.create_pool` exactly once and, on success, overwrites the
shared slot with the newly created pool. -/
theorem C7_no_existing_pool_check (env : Env) (dsn : Option String)
    (st : ConfigState) :
    (create_db_connection env dsn st).trace.countP isCreatePool = 1 ∧
    (env.createPoolOk (effectiveDsn dsn st) = true →
      (create_db_connection env dsn st).state.db_conn_pool =
        PoolSlot.pool ⟨effectiveDsn dsn st, 2, 40⟩) := by
  constructor
  · cases hc : env.createPoolOk (effectiveDsn dsn st) <;>
      simp [create_db_connection, hc, isCreatePool, List.countP_cons,
        List.countP_nil]
  · intro hc
    simp [create_db_connection, hc]

/-- Concrete instance of C7: a state already holding a pool for "old"
is overwritten by the pool for "new", with one creation call. -/
theorem C7_no_existing_pool_check_witness :
    stOld.db_conn_pool = PoolSlot.pool ⟨"old", 2, 40⟩ ∧
    (create_db_connection envOK (some "new") stOld).trace.countP
      isCreatePool = 1 ∧
    (create_db_connection envOK (some "new") stOld).state.db_conn_pool =
      PoolSlot.pool ⟨"new", 2, 40⟩ ∧
    PoolSlot.pool (⟨"new", 2, 40⟩ : Pool) ≠ PoolSlot.pool ⟨"old", 2, 40⟩ :=
  ⟨rfl, (C7_no_existing_pool_check envOK (some "new") stOld).1,
    (C7_no_existing_pool_check envOK (some "new") stOld).2 rfl,
    by decide⟩

/-- C8: database-layer errors are neither caught nor classified and no
operation is retried: each of the create, prepare and fetch calls
happens at most once per `fetch_as_dataframe` call; a pool creation
failure during lazy initialization propagates; a prepare,
introspection or fetch failure propagates; and an absent pool slot is
the one condition handled locally, by lazy creation, after which the
call returns a table rather than raising. -/
theorem C8_errors_propagate_no_retry (env : Env) (query : String)
    (args : List String) (st : ConfigState) :
    ((fetch_as_dataframe env query args st).trace.countP isCreatePool ≤ 1
      ∧ (fetch_as_dataframe env query args st).trace.countP isPrepare ≤ 1
      ∧ (fetch_as_dataframe env query args st).trace.countP isFetch ≤ 1)
    ∧
    (st.db_conn_pool = PoolSlot.unbound →
      env.createPoolOk st.dsn = false →
      (fetch_as_dataframe env query args st).result =
        Except.error PyError.dbError) ∧
    (poolReady env st →
      (env.prepareOk query = false ∨ env.get_attributes query = none ∨
        env.fetchRows query args = none) →
      (fetch_as_dataframe env query args st).result =
        Except.error PyError.dbError) ∧
    (st.db_conn_pool = PoolSlot.unbound → env.createPoolOk st.dsn = true →
      env.prepareOk query = true →
      ∀ attrs data, env.get_attributes query = some attrs →
        env.fetchRows query args = some data →
        ∃ df, (fetch_as_dataframe env query args st).result =
          Except.ok df) := by
  refine ⟨?_, ?_, ?_, ?_⟩
  · rcases hslot : st.db_conn_pool with _ | _ | p
    · cases hc : env.createPoolOk st.dsn
      · rw [fetch_as_dataframe_unbound_fail env query args st hslot hc]
        refine ⟨?_, ?_, ?_⟩ <;>
          simp [isCreatePool, isPrepare, isFetch, List.countP_cons,
            List.countP_nil]
      · rw [fetch_as_dataframe_unbound_ok env query args st hslot hc]
        obtain ⟨mid, hmid, _, h2, _, _, h5, h6, _⟩ :=
          acquireAndFetch_pool_shape env query args
            { st with db_conn_pool := PoolSlot.pool ⟨st.dsn, 2, 40⟩,
                      log := st.log ++ ["db connection pool initialized"] }
            [Event.initPool none, Event.createPool st.dsn]
            ⟨st.dsn, 2, 40⟩ rfl
        rw [hmid]
        refine ⟨?_, ?_, ?_⟩ <;>
          simp [List.countP_append, List.countP_cons, List.countP_nil,
            h2, h5, h6, isCreatePool, isPrepare, isFetch, isInitPool,
            isAcquire, isRelease]
    · rw [fetch_as_dataframe_nonpool env query args st hslot]
      refine ⟨?_, ?_, ?_⟩ <;> simp [acquireAndFetch, hslot]
    · rw [fetch_as_dataframe_pool env query args st p hslot]
      obtain ⟨mid, hmid, _, h2, _, _, h5, h6, _⟩ :=
        acquireAndFetch_pool_shape env query args st [] p hslot
      rw [hmid]
      refine ⟨?_, ?_, ?_⟩ <;>
        simp [List.countP_append, List.countP_cons, List.countP_nil,
          h2, h5, h6, isCreatePool, isPrepare, isFetch, isAcquire,
          isRelease]
  · intro hu hc
    rw [fetch_as_dataframe_unbound_fail env query args st hu hc]
  · rintro (⟨p, hp⟩ | ⟨hu, hc⟩) herr
    · rw [fetch_as_dataframe_pool env query args st p hp]
      obtain ⟨mid, _, _, _, _, _, _, _, herr2⟩ :=
        acquireAndFetch_pool_shape env query args st [] p hp
      exact herr2 herr
    · rw [fetch_as_dataframe_unbound_ok env query args st hu hc]
      obtain ⟨mid, _, _, _, _, _, _, _, herr2⟩ :=
        acquireAndFetch_pool_shape env query args
          { st with db_conn_pool := PoolSlot.pool ⟨st.dsn, 2, 40⟩,
                    log := st.log ++ ["db connection pool initialized"] }
          [Event.initPool none, Event.createPool st.dsn]
          ⟨st.dsn, 2, 40⟩ rfl
      exact herr2 herr
  · intro hu hc hq attrs data ha hf
    rw [fetch_as_dataframe_unbound_ok env query args st hu hc]
    refine ⟨if data ≠ [] ∧ data.length > 0 then
      ⟨attrs.map Attr.name, data⟩ else ⟨[], []⟩, ?_⟩
    simp [acquireAndFetch, hq, ha, hf]

/-- Concrete instance of C8: a failing pool creation during lazy
initialization propagates as a database error, and the successful lazy
path consults prepare at most once. -/
theorem C8_errors_propagate_no_retry_witness :
    ((fetch_as_dataframe envCreateFail "q" [] stUnbound).result =
      Except.error PyError.dbError) ∧
    ((fetch_as_dataframe envOK "q" [] stUnbound).trace.countP isPrepare
      ≤ 1) :=
  ⟨(C8_errors_propagate_no_retry envCreateFail "q" [] stUnbound).2.1
      rfl rfl,
    (C8_errors_propagate_no_retry envOK "q" [] stUnbound).1.2.1⟩

/-- C9: when the shared slot exists but is bound to a non-pool value,
`fetch_as_dataframe` triggers no pool creation (the lazy-init check
catches only the missing attribute) and the acquisition on that value
raises `AttributeError` to the caller, leaving the state unchanged. -/
theorem C9_nonpool_value_not_reinitialized (env : Env) (query : String)
    (args : List String) (st : ConfigState)
    (h : st.db_conn_pool = PoolSlot.nonPool) :
    (fetch_as_dataframe env query args st).trace.countP isInitPool = 0 ∧
    (fetch_as_dataframe env query args st).trace.countP isCreatePool = 0
    ∧ (fetch_as_dataframe env query args st).result =
      Except.error PyError.attributeError ∧
    (fetch_as_dataframe env query args st).state = st := by
  rw [fetch_as_dataframe_nonpool env query args st h]
  refine ⟨?_, ?_, ?_, ?_⟩ <;> simp [acquireAndFetch, h]

/-- Concrete instance of C9: a slot bound to `None` raises rather than
reinitializing. -/
theorem C9_nonpool_value_not_reinitialized_witness :
    stNone.db_conn_pool = PoolSlot.nonPool ∧
    (fetch_as_dataframe envOK "q" [] stNone).result =
      Except.error PyError.attributeError :=
  ⟨rfl,
    (C9_nonpool_value_not_reinitialized envOK "q" [] stNone rfl).2.2.1⟩

/-- C10: when pool creation raises inside `create_db_connection`, the
whole state — the shared slot and the log — is exactly as before the
call, and the error is reported: assignment and the success log line
happen only after a successful creation. -/
theorem C10_create_failure_leaves_state (env : Env) (dsn : Option String)
    (st : ConfigState)
    (hc : env.createPoolOk (effectiveDsn dsn st) = false) :
    (create_db_connection env dsn st).state = st ∧
    (create_db_connection env dsn st).state.db_conn_pool =
      st.db_conn_pool ∧
    (create_db_connection env dsn st).state.log = st.log ∧
    (create_db_connection env dsn st).err = some PyError.dbError := by
  refine ⟨?_, ?_, ?_, ?_⟩ <;> simp [create_db_connection, hc]

/-- Concrete instance of C10: a failing creation leaves the previously
stored pool and the empty log untouched. -/
theorem C10_create_failure_leaves_state_witness :
    envCreateFail.createPoolOk (effectiveDsn (some "new") stOld) = false
    ∧ (create_db_connection envCreateFail (some "new") stOld).state =
      stOld ∧
    (create_db_connection envCreateFail (some "new") stOld).state.log
      = [] :=
  ⟨rfl,
    (C10_create_failure_leaves_state envCreateFail (some "new") stOld
      rfl).1,
    (C10_create_failure_leaves_state envCreateFail (some "new") stOld
      rfl).2.2.1⟩

end LiuDb
